import Mathlib

/-!
Shallow embedding of the ZATCA e-invoicing core (sequence/hash-chain
generator, document assembler, credential lifecycle, submission router)
together with proofs about the properties its specification states.

JavaScript optional string fields are modelled as `Option String`
(`none` = `null`/`undefined`), and JS truthiness on such fields
(`null`, `undefined` and `""` are falsy) is made explicit through the
`jsTruthy`/`jsOr` helpers.  JS numbers are modelled as exact rationals.
-/

namespace Zatca

/-- JS truthiness of an optional string (`null`/`undefined`/`""` are falsy). -/
def jsTruthy : Option String → Bool
  | none => false
  | some s => s ≠ ""

/-- `a || b` for an optional string `a` and fallback `b` (JS logical or). -/
def jsOr (a : Option String) (b : String) : String :=
  match a with
  | none => b
  | some s => if s = "" then b else s

/-- `a || null`: the normalisation the reconciler applies to sub-status
fields before persisting them (`""` collapses to `null`). -/
def jsOrNull (a : Option String) : Option String :=
  match a with
  | none => none
  | some s => if s = "" then none else some s

/-- `(a || []).…`: a JS optional array defaults to the empty array. -/
def jsArr {α : Type} (a : Option (List α)) : List α :=
  a.getD []

/-- JS truthiness of an optional number (`0`, `null`, `undefined` falsy);
used by the template's `totals.x ? … : ""` guards. -/
def jsTruthyNum : Option ℚ → Bool
  | none => false
  | some q => q ≠ 0

/-- `a || b` for an optional number and fallback `b`: JS logical or, so
`0` falls back just like `null`/`undefined`. -/
def jsOrNum (a : Option ℚ) (b : ℚ) : ℚ :=
  match a with
  | none => b
  | some q => if q = 0 then b else q

/-!
## Submission router & status reconciler
(`src/src/compliance/compliance.service.ts`, `updateSubmissionStatus`
and `submitToZatca`.)
-/

/-- The fields of the authority's raw response that the reconciler reads:
`result.reportingStatus`, `result.clearanceStatus` and
`result.validationResults?.status`. -/
structure ZatcaResponse where
  reportingStatus : Option String
  clearanceStatus : Option String
  validationStatus : Option String
  deriving DecidableEq, Repr

/-- The status mapping of `updateSubmissionStatus` (lines 471-486):
`"CLEARED"`/`"REPORTED"` (by submission kind) when the reporting-status is
`"REPORTED"`, or the clearance-status is `"CLEARED"`, or
`validationResults.status` is `"PASS"`; otherwise `"FAILED"`. -/
def deriveOverallStatus (result : ZatcaResponse) (isStandard : Bool) : String :=
  let reportingStatus := jsOrNull result.reportingStatus
  let clearanceStatus := jsOrNull result.clearanceStatus
  if reportingStatus = some "REPORTED" ∨ clearanceStatus = some "CLEARED" ∨
      result.validationStatus = some "PASS" then
    if isStandard then "CLEARED" else "REPORTED"
  else "FAILED"

/-- One `zatcaSubmission` row. -/
structure ZatcaSubmission where
  invoiceId : String
  submissionType : String
  zatcaStatus : String
  reportingStatus : Option String
  clearanceStatus : Option String
  zatcaResponse : ZatcaResponse
  attemptCount : Nat
  lastAttemptAt : Nat
  deriving DecidableEq, Repr

/-- `updateSubmissionStatus`: derives the canonical status and upserts the
submission row (`create` with `attemptCount: 1`, `update` with
`attemptCount: { increment: 1 }`, both stamping `lastAttemptAt`), and the
invoice's status is set to the same canonical status.  Returns the new
submission row together with the canonical status written to the invoice. -/
def updateSubmissionStatus (now : Nat) (old : Option ZatcaSubmission)
    (invoiceId : String) (result : ZatcaResponse) (submissionType : String)
    (isStandard : Bool) : ZatcaSubmission × String :=
  let reportingStatus := jsOrNull result.reportingStatus
  let clearanceStatus := jsOrNull result.clearanceStatus
  let overallStatus := deriveOverallStatus result isStandard
  let row : ZatcaSubmission :=
    match old with
    | none =>
        { invoiceId := invoiceId
          submissionType := submissionType
          zatcaStatus := overallStatus
          reportingStatus := reportingStatus
          clearanceStatus := clearanceStatus
          zatcaResponse := result
          lastAttemptAt := now
          attemptCount := 1 }
    | some s =>
        { s with
          zatcaStatus := overallStatus
          reportingStatus := reportingStatus
          clearanceStatus := clearanceStatus
          zatcaResponse := result
          attemptCount := s.attemptCount + 1
          lastAttemptAt := now }
  (row, overallStatus)

/-- One row of the `invoiceHash` table (1:1 with an invoice); the digest
column is nullable. -/
structure InvoiceHashRec where
  currentInvoiceHash : Option String
  deriving DecidableEq, Repr

/-- The columns of an `invoice` row that the router and sequencer read. -/
structure InvoiceRec where
  id : String
  commonName : String
  invoiceNumber : String
  uuid : String
  invoiceTypeCodeName : String
  signedXml : Option String
  hash : Option InvoiceHashRec
  deriving DecidableEq, Repr

/-- The columns of an `egsUnit` row (credential unit). -/
structure EgsUnit where
  commonName : String
  csr : Option String
  privateKey : Option String
  binarySecurityToken : Option String
  secret : Option String
  requestId : Option String
  complianceBinarySecurityToken : Option String
  complianceSecret : Option String
  complianceRequestId : Option String
  productionBinarySecurityToken : Option String
  productionSecret : Option String
  productionRequestId : Option String
  production : Bool
  deriving DecidableEq, Repr

/-- The two authority endpoints the router can call. -/
inductive Endpoint
  | clearance
  | reporting
  deriving DecidableEq, Repr

/-- `submitToZatca`: loads the invoice by serial number, requires signed
XML and a stored digest, loads the unit's active tokens, classifies the
invoice (`invoiceTypeCodeName.startsWith("01")` ⇒ standard ⇒ clearance,
otherwise reporting), calls the matching endpoint (whose reply is the
`result` argument), and persists through `updateSubmissionStatus`.
Returns the endpoint used, the new submission row and the canonical
status. -/
def submitToZatca (invoices : List InvoiceRec) (units : List EgsUnit)
    (oldSubmission : Option ZatcaSubmission) (now : Nat)
    (commonName invoiceSerialNumber : String) (result : ZatcaResponse) :
    Except String (Endpoint × ZatcaSubmission × String) :=
  match invoices.find? (fun i => i.invoiceNumber = invoiceSerialNumber) with
  | none => .error "Invoice not found or missing signed XML/hash."
  | some invoice =>
    if ¬(jsTruthy invoice.signedXml ∧
        jsTruthy (invoice.hash.bind (·.currentInvoiceHash))) then
      .error "Invoice not found or missing signed XML/hash."
    else
      match units.find? (fun u => u.commonName = commonName) with
      | none => .error "Security tokens not found."
      | some egsUnit =>
        if ¬(jsTruthy egsUnit.binarySecurityToken ∧ jsTruthy egsUnit.secret) then
          .error "Security tokens not found."
        else
          let isStandard := invoice.invoiceTypeCodeName.startsWith "01"
          let submissionType := if isStandard then "CLEARANCE" else "REPORTING"
          let endpoint := if isStandard then Endpoint.clearance else Endpoint.reporting
          let upd := updateSubmissionStatus now oldSubmission invoice.id result
            submissionType isStandard
          .ok (endpoint, upd.1, upd.2)

/-!
## Credential lifecycle (`src/unnamed/part_013`)
-/

/-- Whether the compliance credential slot is fully populated (the three
fields the `issueProductionCsid` validation tests, under JS truthiness). -/
def complianceCredsPresent (u : EgsUnit) : Bool :=
  jsTruthy u.complianceBinarySecurityToken && jsTruthy u.complianceSecret &&
    jsTruthy u.complianceRequestId

/-- Whether the legacy/active credential slot is fully populated (the
fallback the `issueProductionCsid` validation accepts). -/
def legacyCredsPresent (u : EgsUnit) : Bool :=
  jsTruthy u.binarySecurityToken && jsTruthy u.secret && jsTruthy u.requestId

/-- The successful reply of the authority's production-certificate
endpoint (`result.requestID?.toString()` may be absent). -/
structure ProdCertResult where
  binarySecurityToken : String
  secret : String
  requestID : Option String
  deriving DecidableEq, Repr

/-- `issueProductionCsid`: requires the unit to exist and either the
compliance slot or the legacy active slot to be populated; on success
persists the production credentials and overwrites the active slot with
them.  The authority call itself is external: `api` is its successful
reply, and every failing path returns an error before any write. -/
def issueProductionCsid (egsUnit? : Option EgsUnit) (api : ProdCertResult) :
    Except String EgsUnit :=
  match egsUnit? with
  | none => .error "EGS Unit not found."
  | some egsUnit =>
    if ¬complianceCredsPresent egsUnit ∧ ¬legacyCredsPresent egsUnit then
      .error "Compliance CSID credentials missing. Please run 'issue-csid' (Step 2) first."
    else
      .ok { egsUnit with
        productionBinarySecurityToken := some api.binarySecurityToken
        productionSecret := some api.secret
        productionRequestId := api.requestID
        binarySecurityToken := some api.binarySecurityToken
        secret := some api.secret
        requestId := api.requestID }

/-!
## Hash-chain sequencer (`src/src/common/sequence.service.ts`)
-/

/-- The fixed genesis constant used as previous hash for the first
invoice of a series (`DEFAULT_FIRST_HASH`). -/
def DEFAULT_FIRST_HASH : String :=
  "NWZlY2ViOTZmOTk1YTRiMGNjM2YwOTUwZGYzMmM2YjQ5ZGEyN2IyOA=="

/-- `findFirst` with `orderBy: { invoiceNumber: "desc" }`: the row ranked
first when ordered by serial number descending, i.e. the row with the
(lexicographically) greatest `invoiceNumber`. -/
def findFirstByInvoiceNumberDesc (invoices : List InvoiceRec) :
    Option InvoiceRec :=
  invoices.foldl (fun acc inv =>
    match acc with
    | none => some inv
    | some best =>
        if best.invoiceNumber < inv.invoiceNumber then some inv else some best)
    none

/-- The persistent state the sequencer touches: the invoice table and the
`invoiceCounter` table (`seriesKey` → `lastNumber`). -/
structure SeqDb where
  invoices : List InvoiceRec
  counters : List (String × Nat)
  deriving DecidableEq, Repr

/-- The parts of `SignInvoiceDto` that `generateNextSerialNumber` reads. -/
structure SeqDto where
  commonName : String
  invoiceTypeCode : Option String
  invoiceTypeCodeName : Option String
  customerType : Option String
  deriving DecidableEq, Repr

/-- What `generateNextSerialNumber` returns. -/
structure SeqResult where
  serialNumber : String
  counter : Nat
  previousHash : String
  deriving DecidableEq, Repr

/-- `padStart(8, "0")`. -/
def padStart (n : Nat) (c : Char) (s : String) : String :=
  if n ≤ s.length then s else String.mk (List.replicate (n - s.length) c) ++ s

/-- The serial-prefix rule: `"381"` → `RE`, `"383"` → `AD`, else `SD` when
`invoiceTypeCodeName?.startsWith("01") || customer?.type === "B2B"`,
else `SI`. -/
def typePrefix (dto : SeqDto) : String :=
  if dto.invoiceTypeCode = some "381" then "RE"
  else if dto.invoiceTypeCode = some "383" then "AD"
  else
    let isStandard := (dto.invoiceTypeCodeName.map (·.startsWith "01")).getD false
      || dto.customerType = some "B2B"
    if isStandard then "SD" else "SI"

/-- The `invoiceCounter.upsert`: increments `lastNumber` when the series
key exists, creates the row with `lastNumber: 1` otherwise; returns the
updated table and the resulting `lastNumber`. -/
def upsertCounter : List (String × Nat) → String → List (String × Nat) × Nat
  | [], k => ([(k, 1)], 1)
  | (k', n) :: rest, k =>
      if k' = k then ((k', n + 1) :: rest, n + 1)
      else
        let r := upsertCounter rest k
        ((k', n) :: r.1, r.2)

/-- `generateNextSerialNumber`: resolves the previous hash from the most
recently issued invoice of the series (genesis constant when the lookup
or the stored digest is falsy), computes the type prefix, atomically
upserts the series counter, and builds the zero-padded serial string
`{HOTEL}-{PREFIX}-{YY}-{8 digits}`.  `yearYY` is the two-digit year read
from the clock. -/
def generateNextSerialNumber (db : SeqDb) (yearYY : String) (dto : SeqDto) :
    SeqResult × SeqDb :=
  let commonName := dto.commonName
  let hotelCode := commonName.toUpper
  let lastInvoice := findFirstByInvoiceNumberDesc
    (db.invoices.filter (fun i => i.commonName = commonName))
  let previousHash :=
    jsOr ((lastInvoice.bind (·.hash)).bind (·.currentInvoiceHash)) DEFAULT_FIRST_HASH
  let pfx := typePrefix dto
  let upsert := upsertCounter db.counters commonName
  let nextCount := upsert.2
  let paddedSeq := padStart 8 '0' (toString nextCount)
  let serialNumber := hotelCode ++ "-" ++ pfx ++ "-" ++ yearYY ++ "-" ++ paddedSeq
  ({ serialNumber := serialNumber, counter := nextCount,
     previousHash := previousHash },
   { db with counters := upsert.1 })

/-- `revokeEgs`: nulls the six token/secret columns of the unit
(`binarySecurityToken`, `secret`, `productionBinarySecurityToken`,
`productionSecret`, `complianceBinarySecurityToken`,
`complianceSecret`); no other column is touched. -/
def revokeEgs (u : EgsUnit) : EgsUnit :=
  { u with
    binarySecurityToken := none
    secret := none
    productionBinarySecurityToken := none
    productionSecret := none
    complianceBinarySecurityToken := none
    complianceSecret := none }

/-!
## Document assembler (`src/unnamed/part_010`, `XmlTemplateService`)

The request DTO (`SignInvoiceDto`, `src/unnamed/part_007`).  JS numbers
are modelled as exact rationals.
-/

/-- `AllowanceChargeDto`. -/
structure AllowanceCharge where
  chargeIndicator : Bool
  reasonCode : Option String
  reason : Option String
  amount : ℚ
  vatPercent : Option ℚ
  taxCategory : Option String
  deriving DecidableEq, Repr

/-- `DocumentReferenceDto`. -/
structure DocumentReference where
  id : String
  uuid : String
  issueDate : String
  issueTime : String
  documentTypeCode : Option String
  deriving DecidableEq, Repr

/-- `InvoiceLineItemDto`. -/
structure LineItem where
  lineId : String
  description : String
  quantity : ℚ
  unitCode : Option String
  unitPrice : ℚ
  taxExclusiveAmount : ℚ
  vatPercent : ℚ
  vatAmount : ℚ
  taxCategory : Option String
  taxExemptionReasonCode : Option String
  taxExemptionReason : Option String
  documentReference : Option DocumentReference
  allowanceCharges : Option (List AllowanceCharge)
  deriving DecidableEq, Repr

/-- `PrepaymentDto`. -/
structure Prepayment where
  prepaidAmount : ℚ
  prepaidAmountExVAT : ℚ
  prepaidVATAmount : ℚ
  prepaymentInvoiceId : Option String
  prepaymentDate : Option String
  deriving DecidableEq, Repr

/-- `AddressDto`. -/
structure Address where
  street : Option String
  buildingNumber : Option String
  district : Option String
  city : Option String
  postalCode : Option String
  country : Option String
  deriving DecidableEq, Repr

/-- `SupplierDto`. -/
structure Supplier where
  registrationName : String
  vatNumber : String
  address : Address
  deriving DecidableEq, Repr

/-- `CustomerDto`. -/
structure Customer where
  type : Option String
  name : Option String
  registrationName : Option String
  vatNumber : Option String
  crNumber : Option String
  address : Option Address
  deriving DecidableEq, Repr

/-- `EgsDto` (the fields the template reads). -/
structure EgsInfo where
  commonName : String
  vatNumber : String
  crNumber : Option String
  deriving DecidableEq, Repr

/-- `InvoiceMetaDto` (the fields the template reads). -/
structure InvoiceMeta where
  invoiceSerialNumber : Option String
  uuid : Option String
  issueDate : Option String
  issueTime : Option String
  timezone : Option String
  currency : Option String
  invoiceCounterNumber : Option ℚ
  previousInvoiceHash : Option String
  invoiceTypeCode : Option String
  invoiceTypeCodeName : Option String
  billingReferenceId : Option String
  deriving DecidableEq, Repr

/-- `TotalsDto`. -/
structure Totals where
  lineExtensionTotal : ℚ
  taxExclusiveTotal : ℚ
  vatTotal : ℚ
  taxCurrencyVatTotal : Option ℚ
  taxInclusiveTotal : ℚ
  allowanceTotalAmount : Option ℚ
  chargeTotalAmount : Option ℚ
  prepaidAmount : Option ℚ
  payableRoundingAmount : Option ℚ
  payableAmount : ℚ
  deriving DecidableEq, Repr

/-- `SignInvoiceDto`. -/
structure SignInvoiceDto where
  egs : EgsInfo
  invoice : InvoiceMeta
  supplier : Supplier
  customer : Option Customer
  lineItems : List LineItem
  allowanceCharges : Option (List AllowanceCharge)
  prepayment : Option Prepayment
  totals : Totals
  deriving DecidableEq, Repr

/-- The per-line category rule of the template:
`item.taxCategory || (item.vatPercent > 0 ? "S" : "O")`. -/
def effectiveTaxCategory (item : LineItem) : String :=
  jsOr item.taxCategory (if 0 < item.vatPercent then "S" else "O")

/-- The zero-rated VAT category code of the authority's code list, as
the repository's own API guide states it (`src/unnamed/part_018`:
"`E` for Exempt, `Z` for Zero-Rated"). -/
def zeroRatedCategoryCode : String := "Z"

/-- Net effect of a line's allowances/charges:
`(item.allowanceCharges || []).reduce((sum, ac) =>
  ac.chargeIndicator ? sum + ac.amount : sum - ac.amount, 0)`. -/
def lineNetChange (item : LineItem) : ℚ :=
  (jsArr item.allowanceCharges).foldl
    (fun sum ac => if ac.chargeIndicator then sum + ac.amount else sum - ac.amount) 0

/-- One accumulated `<cac:TaxSubtotal>` group. -/
structure TaxSubtotal where
  taxableAmount : ℚ
  taxAmount : ℚ
  percent : ℚ
  category : String
  reasonCode : Option String
  reason : Option String
  deriving DecidableEq, Repr

/-- The grouping key.  The source keys its `Map` by the string
`` `${cat}_${item.vatPercent}` ``; since the printed form of a JS number
never contains `_`, that string determines and is determined by the
(category, percent) pair, which we use as the key directly. -/
abbrev GroupKey := String × ℚ

/-- In-place update of the value stored at `k` (position preserved),
mirroring mutation of the object held in the `Map`. -/
def updateEntry (m : List (GroupKey × TaxSubtotal)) (k : GroupKey)
    (f : TaxSubtotal → TaxSubtotal) : List (GroupKey × TaxSubtotal) :=
  match m with
  | [] => []
  | e :: rest =>
      if e.1 = k then (e.1, f e.2) :: rest else e :: updateEntry rest k f

/-- One step of the `lineItems.forEach` loop filling `taxSubtotalsMap`:
insert a zero group at the end on first sight of the key, then add the
line's net taxable amount and tax amount to the group. -/
def addLineToMap (m : List (GroupKey × TaxSubtotal)) (item : LineItem) :
    List (GroupKey × TaxSubtotal) :=
  let cat := effectiveTaxCategory item
  let key : GroupKey := (cat, item.vatPercent)
  let m' :=
    if m.any (fun e => e.1 = key) then m
    else m ++ [(key,
      { taxableAmount := 0, taxAmount := 0, percent := item.vatPercent,
        category := cat, reasonCode := item.taxExemptionReasonCode,
        reason := item.taxExemptionReason })]
  updateEntry m' key (fun sub =>
    { sub with
      taxableAmount := sub.taxableAmount + (item.taxExclusiveAmount + lineNetChange item)
      taxAmount := sub.taxAmount + item.vatAmount })

/-- `taxSubtotalsMap`: a stable map keyed by category+rate in first-seen
order (a JS `Map` iterates in insertion order), accumulating taxable base
and tax amount per group. -/
def taxSubtotalsMap (items : List LineItem) : List (GroupKey × TaxSubtotal) :=
  items.foldl addLineToMap []

/-- One step of first-seen deduplication: append the key unless it was
seen already. -/
def seenStep {α : Type} [DecidableEq α] (acc : List α) (k : α) : List α :=
  if k ∈ acc then acc else acc ++ [k]

/-- First-seen deduplication of a list of keys: the order in which a JS
`Map` filled by the loop yields its keys. -/
def firstSeen {α : Type} [DecidableEq α] (l : List α) : List α :=
  l.foldl seenStep []

/-- Two decimal digits with a leading zero. -/
def pad2 (m : Nat) : String :=
  if m < 10 then "0" ++ toString m else toString m

/-- `Number.prototype.toFixed(2)` on an exact rational: the sign of the
argument, then the magnitude rounded to the nearest multiple of `1/100`
(ties upward), printed with exactly two fraction digits. -/
def toFixed2 (q : ℚ) : String :=
  let sign := if q < 0 then "-" else ""
  let n : ℕ := (⌊|q| * 100 + 1 / 2⌋).toNat
  sign ++ toString (n / 100) ++ "." ++ pad2 (n % 100)

/-- Default JS printing of a number, on the exact rationals that model
the API's decimal inputs: integers print without a point, other values
with their shortest exact decimal expansion (a rational whose
denominator divides no power of ten falls back to a fraction form;
no such value arises from a JS float). -/
def jsNumToString (q : ℚ) : String :=
  let sign := if q < 0 then "-" else ""
  let x := |q|
  if x.den = 1 then sign ++ toString x.num.toNat
  else
    match (List.range 18).find? (fun k => (x * 10 ^ (k + 1)).den = 1) with
    | some k =>
        let m := (x * 10 ^ (k + 1)).num.toNat
        sign ++ toString (m / 10 ^ (k + 1)) ++ "." ++
          padStart (k + 1) '0' (toString (m % 10 ^ (k + 1)))
    | none => sign ++ toString x.num.toNat ++ "/" ++ toString x.den

/-- Interpolation of a JS boolean (`${ac.chargeIndicator}`). -/
def jsBool (b : Bool) : String :=
  if b then "true" else "false"

/-- Interpolation of an optional string (`${x}` prints `undefined` for a
missing field). -/
def jsShowOptStr (a : Option String) : String :=
  match a with
  | none => "undefined"
  | some s => s

/-- Interpolation of an optional number. -/
def jsShowOptNum (a : Option ℚ) : String :=
  match a with
  | none => "undefined"
  | some q => jsNumToString q

/-- Interpolation of an optional string inside a branch guarded by its
own truthiness. -/
def jsStr (a : Option String) : String :=
  a.getD ""

/-- The `<cac:DocumentReference>` block of a line item
(`item.documentReference ? … : ""`). -/
def docRefXml (item : LineItem) : String :=
  match item.documentReference with
  | none => ""
  | some dr => "
        <cac:DocumentReference>
            <cbc:ID>" ++ dr.id ++ "</cbc:ID>
            <cbc:UUID>" ++ dr.uuid ++ "</cbc:UUID>
            <cbc:IssueDate>" ++ dr.issueDate ++ "</cbc:IssueDate>
            <cbc:IssueTime>" ++ dr.issueTime ++ "</cbc:IssueTime>
            <cbc:DocumentTypeCode>" ++ jsOr dr.documentTypeCode "386" ++ "</cbc:DocumentTypeCode>
        </cac:DocumentReference>"

/-- The line-level `<cac:AllowanceCharge>` blocks of a line item. -/
def lineAllowanceChargesXml (cur : String) (item : LineItem) : String :=
  String.join ((jsArr item.allowanceCharges).map (fun ac => "
        <cac:AllowanceCharge>
            <cbc:ChargeIndicator>" ++ jsBool ac.chargeIndicator ++ "</cbc:ChargeIndicator>
            " ++ (if jsTruthy ac.reasonCode then
              "<cbc:AllowanceChargeReasonCode>" ++ jsStr ac.reasonCode ++
                "</cbc:AllowanceChargeReasonCode>" else "") ++ "
            " ++ (if jsTruthy ac.reason then
              "<cbc:AllowanceChargeReason>" ++ jsStr ac.reason ++
                "</cbc:AllowanceChargeReason>" else "") ++ "
            <cbc:Amount currencyID=\"" ++ cur ++ "\">" ++ toFixed2 ac.amount ++ "</cbc:Amount>
        </cac:AllowanceCharge>"))

/-- One `<cac:InvoiceLine>` block (the body of the `lineItems.map`). -/
def invoiceLineXml (cur : String) (item : LineItem) : String := "
    <cac:InvoiceLine>
        <cbc:ID>" ++ item.lineId ++ "</cbc:ID>
        <cbc:InvoicedQuantity unitCode=\"" ++ jsOr item.unitCode "PCE" ++ "\">" ++
  jsNumToString item.quantity ++ "</cbc:InvoicedQuantity>
        <cbc:LineExtensionAmount currencyID=\"" ++ cur ++ "\">" ++
  toFixed2 item.taxExclusiveAmount ++ "</cbc:LineExtensionAmount>" ++
  docRefXml item ++ lineAllowanceChargesXml cur item ++ "
        <cac:TaxTotal>
            <cbc:TaxAmount currencyID=\"" ++ cur ++ "\">" ++ toFixed2 item.vatAmount ++
  "</cbc:TaxAmount>
            <cbc:RoundingAmount currencyID=\"" ++ cur ++ "\">" ++
  toFixed2 (item.taxExclusiveAmount + item.vatAmount + lineNetChange item) ++
  "</cbc:RoundingAmount>
        </cac:TaxTotal>
        <cac:Item>
            <cbc:Name>" ++ item.description ++ "</cbc:Name>
            <cac:ClassifiedTaxCategory>
                <cbc:ID>" ++ effectiveTaxCategory item ++ "</cbc:ID>
                <cbc:Percent>" ++ toFixed2 item.vatPercent ++ "</cbc:Percent>
                <cac:TaxScheme>
                    <cbc:ID>VAT</cbc:ID>
                </cac:TaxScheme>
            </cac:ClassifiedTaxCategory>
        </cac:Item>
        <cac:Price>
            <cbc:PriceAmount currencyID=\"" ++ cur ++ "\">" ++ toFixed2 item.unitPrice ++
  "</cbc:PriceAmount>
        </cac:Price>
    </cac:InvoiceLine>"

/-- All `<cac:InvoiceLine>` blocks joined (`lineItems.map(…).join("")`). -/
def lineItemsXml (cur : String) (items : List LineItem) : String :=
  String.join (items.map (invoiceLineXml cur))

/-- The synthetic zero-quantity prepayment line (`dto.prepayment ? … : ""`). -/
def prepaymentLineItemXml (cur : String) (numLines : Nat) :
    Option Prepayment → String
  | none => ""
  | some p => "
    <cac:InvoiceLine>
        <cbc:ID>" ++ toString (numLines + 1) ++ "</cbc:ID>
        <cbc:InvoicedQuantity unitCode=\"PCE\">0.000000</cbc:InvoicedQuantity>
        <cbc:LineExtensionAmount currencyID=\"" ++ cur ++ "\">0.00</cbc:LineExtensionAmount>" ++
    (if jsTruthy p.prepaymentInvoiceId then "
        <cac:DocumentReference>
            <cbc:ID>" ++ jsStr p.prepaymentInvoiceId ++ "</cbc:ID>" ++
      (if jsTruthy p.prepaymentDate then "
            <cbc:IssueDate>" ++ jsStr p.prepaymentDate ++ "</cbc:IssueDate>" else "") ++ "
            <cbc:DocumentTypeCode>386</cbc:DocumentTypeCode>
        </cac:DocumentReference>" else "") ++ "
        <cac:TaxTotal>
            <cbc:TaxAmount currencyID=\"" ++ cur ++ "\">" ++ toFixed2 p.prepaidVATAmount ++
    "</cbc:TaxAmount>
            <cbc:RoundingAmount currencyID=\"" ++ cur ++ "\">0.00</cbc:RoundingAmount>
            <cac:TaxSubtotal>
                <cbc:TaxableAmount currencyID=\"" ++ cur ++ "\">" ++
    toFixed2 p.prepaidAmountExVAT ++ "</cbc:TaxableAmount>
                <cbc:TaxAmount currencyID=\"" ++ cur ++ "\">" ++ toFixed2 p.prepaidVATAmount ++
    "</cbc:TaxAmount>
                <cac:TaxCategory>
                    <cbc:ID>S</cbc:ID>
                    <cbc:Percent>15.00</cbc:Percent>
                    <cac:TaxScheme>
                        <cbc:ID>VAT</cbc:ID>
                    </cac:TaxScheme>
                </cac:TaxCategory>
            </cac:TaxSubtotal>
        </cac:TaxTotal>
        <cac:Item>
            <cbc:Name>Advance payment received - Booking deposit</cbc:Name>
            <cac:ClassifiedTaxCategory>
                <cbc:ID>S</cbc:ID>
                <cbc:Percent>15.00</cbc:Percent>
                <cac:TaxScheme>
                    <cbc:ID>VAT</cbc:ID>
                </cac:TaxScheme>
            </cac:ClassifiedTaxCategory>
        </cac:Item>
        <cac:Price>
            <cbc:PriceAmount currencyID=\"" ++ cur ++ "\">0.00</cbc:PriceAmount>
        </cac:Price>
    </cac:InvoiceLine>"

/-- The `<cac:BillingReference>` block (credit/debit notes only). -/
def billingReferenceXml (isNote : Bool) (billingReferenceId : Option String) : String :=
  if isNote ∧ jsTruthy billingReferenceId then "
    <cac:BillingReference>
        <cac:InvoiceDocumentReference>
            <cbc:ID>" ++ jsStr billingReferenceId ++ "</cbc:ID>
        </cac:InvoiceDocumentReference>
    </cac:BillingReference>"
  else ""

/-- One `<cac:TaxSubtotal>` block of the grouped map. -/
def taxSubtotalXml (cur : String) (sub : TaxSubtotal) : String := "
        <cac:TaxSubtotal>
            <cbc:TaxableAmount currencyID=\"" ++ cur ++ "\">" ++ toFixed2 sub.taxableAmount ++
  "</cbc:TaxableAmount>
            <cbc:TaxAmount currencyID=\"" ++ cur ++ "\">" ++ toFixed2 sub.taxAmount ++
  "</cbc:TaxAmount>
            <cac:TaxCategory>
                <cbc:ID schemeAgencyID=\"6\" schemeID=\"UN/ECE 5305\">" ++ sub.category ++
  "</cbc:ID>
                <cbc:Percent>" ++ toFixed2 sub.percent ++ "</cbc:Percent>
                " ++ (if jsTruthy sub.reasonCode then
              "<cbc:TaxExemptionReasonCode>" ++ jsStr sub.reasonCode ++
                "</cbc:TaxExemptionReasonCode>" else "") ++ "
                " ++ (if jsTruthy sub.reason then
              "<cbc:TaxExemptionReason>" ++ jsStr sub.reason ++ "</cbc:TaxExemptionReason>"
            else "") ++ "
                <cac:TaxScheme>
                    <cbc:ID schemeAgencyID=\"6\" schemeID=\"UN/ECE 5153\">VAT</cbc:ID>
                </cac:TaxScheme>
            </cac:TaxCategory>
        </cac:TaxSubtotal>"

/-- `taxSubtotalsXml`: the grouped map's values rendered in order. -/
def taxSubtotalsXml (cur : String) (items : List LineItem) : String :=
  String.join ((taxSubtotalsMap items).map (fun e => taxSubtotalXml cur e.2))

/-- The document-level `<cac:AllowanceCharge>` blocks. -/
def allowanceChargesXml (cur : String) (acs : Option (List AllowanceCharge)) : String :=
  String.join ((jsArr acs).map (fun ac => "
    <cac:AllowanceCharge>
        <cbc:ChargeIndicator>" ++ jsBool ac.chargeIndicator ++ "</cbc:ChargeIndicator>
        " ++ (if jsTruthy ac.reasonCode then
          "<cbc:AllowanceChargeReasonCode>" ++ jsStr ac.reasonCode ++
            "</cbc:AllowanceChargeReasonCode>" else "") ++ "
        " ++ (if jsTruthy ac.reason then
          "<cbc:AllowanceChargeReason>" ++ jsStr ac.reason ++ "</cbc:AllowanceChargeReason>"
        else "") ++ "
        <cbc:Amount currencyID=\"" ++ cur ++ "\">" ++ toFixed2 ac.amount ++ "</cbc:Amount>
        <cac:TaxCategory>
            <cbc:ID schemeAgencyID=\"6\" schemeID=\"UN/ECE 5305\">" ++
    jsOr ac.taxCategory "S" ++ "</cbc:ID>
            <cbc:Percent>" ++ toFixed2 (jsOrNum ac.vatPercent 15) ++ "</cbc:Percent>
            <cac:TaxScheme>
                <cbc:ID schemeAgencyID=\"6\" schemeID=\"UN/ECE 5153\">VAT</cbc:ID>
            </cac:TaxScheme>
        </cac:TaxCategory>
    </cac:AllowanceCharge>"))

/-- The `<cac:AccountingCustomerParty>` block: full details for a
standard document with a customer, a basic legal entity otherwise. -/
def customerPartyXml (isStandard : Bool) (customer : Option Customer) : String :=
  match isStandard, customer with
  | true, some c =>
      let customerName := jsOr c.registrationName (jsOr c.name "Customer")
      "
    <cac:AccountingCustomerParty>
        <cac:Party>
            <cac:PartyIdentification>
                <cbc:ID schemeID=\"CRN\">" ++ jsOr c.crNumber "1010010000" ++ "</cbc:ID>
            </cac:PartyIdentification>
            <cac:PostalAddress>
                <cbc:StreetName>" ++ jsOr (c.address.bind (·.street)) "Street" ++
      "</cbc:StreetName>
                <cbc:BuildingNumber>" ++ jsOr (c.address.bind (·.buildingNumber)) "0000" ++
      "</cbc:BuildingNumber>
                <cbc:CitySubdivisionName>" ++ jsOr (c.address.bind (·.district)) "District" ++
      "</cbc:CitySubdivisionName>
                <cbc:CityName>" ++ jsOr (c.address.bind (·.city)) "City" ++ "</cbc:CityName>
                <cbc:PostalZone>" ++ jsOr (c.address.bind (·.postalCode)) "00000" ++
      "</cbc:PostalZone>
                <cac:Country><cbc:IdentificationCode>" ++
      jsOr (c.address.bind (·.country)) "SA" ++
      "</cbc:IdentificationCode></cac:Country>
            </cac:PostalAddress>
            " ++ (if jsTruthy c.vatNumber then "
            <cac:PartyTaxScheme>
                <cbc:CompanyID>" ++ jsStr c.vatNumber ++ "</cbc:CompanyID>
                <cac:TaxScheme><cbc:ID>VAT</cbc:ID></cac:TaxScheme>
            </cac:PartyTaxScheme>" else "") ++ "
            <cac:PartyLegalEntity>
                <cbc:RegistrationName>" ++ customerName ++ "</cbc:RegistrationName>
            </cac:PartyLegalEntity>
        </cac:Party>
    </cac:AccountingCustomerParty>"
  | _, c => "
    <cac:AccountingCustomerParty>
        <cac:Party>
            <cac:PartyLegalEntity>
                <cbc:RegistrationName>" ++ jsOr (c.bind (·.name)) "Walk-in Guest" ++
      "</cbc:RegistrationName>
            </cac:PartyLegalEntity>
        </cac:Party>
    </cac:AccountingCustomerParty>"

/-- `XmlTemplateService.generateInvoiceXml`.  The two impure readings of
the source are passed in: `uuid` is the value `crypto.randomUUID()`
returns during the run, and `zatcaDate`/`zatcaTime` are the current-time
provider (`getZatcaDate`/`getZatcaTime` at the run's clock reading, as a
function of the timezone they are given). -/
def generateInvoiceXml (uuid : String) (zatcaDate zatcaTime : String → String)
    (dto : SignInvoiceDto) : String :=
  let egs := dto.egs
  let invoice := dto.invoice
  let supplier := dto.supplier
  let customer := dto.customer
  let lineItems := dto.lineItems
  let totals := dto.totals
  let finalPreviousHash := jsOr invoice.previousInvoiceHash DEFAULT_FIRST_HASH
  let timezone := jsOr invoice.timezone "Asia/Riyadh"
  let finalDate := jsOr invoice.issueDate (zatcaDate timezone)
  let finalTime := jsOr invoice.issueTime (zatcaTime timezone)
  let isStandard := (invoice.invoiceTypeCodeName.map (·.startsWith "01")).getD false
  let isNote := invoice.invoiceTypeCode == some "381" ||
    invoice.invoiceTypeCode == some "383"
  let cur := jsOr invoice.currency "SAR"
  let profileID := if isStandard then "clearance:1.0" else "reporting:1.0"
  "<?xml version=\"1.0\" encoding=\"UTF-8\"?>
<Invoice xmlns=\"urn:oasis:names:specification:ubl:schema:xsd:Invoice-2\" xmlns:cac=\"urn:oasis:names:specification:ubl:schema:xsd:CommonAggregateComponents-2\" xmlns:cbc=\"urn:oasis:names:specification:ubl:schema:xsd:CommonBasicComponents-2\" xmlns:ext=\"urn:oasis:names:specification:ubl:schema:xsd:CommonExtensionComponents-2\">
    <ext:UBLExtensions>
        <ext:UBLExtension>
            <ext:ExtensionURI>urn:oasis:names:specification:ubl:dsig:enveloped:xades</ext:ExtensionURI>
            <ext:ExtensionContent>
                <!-- ZATCA will inject Digital Signature here -->
            </ext:ExtensionContent>
        </ext:UBLExtension>
    </ext:UBLExtensions>
    <cbc:ProfileID>" ++ profileID ++ "</cbc:ProfileID>
    <cbc:ID>" ++ jsShowOptStr invoice.invoiceSerialNumber ++ "</cbc:ID>
    <cbc:UUID>" ++ uuid ++ "</cbc:UUID>
    <cbc:IssueDate>" ++ finalDate ++ "</cbc:IssueDate>
    <cbc:IssueTime>" ++ finalTime ++ "</cbc:IssueTime>
    <cbc:InvoiceTypeCode name=\"" ++
  jsOr invoice.invoiceTypeCodeName (if isStandard then "0111010" else "0211010") ++
  "\">" ++ jsOr invoice.invoiceTypeCode "388" ++ "</cbc:InvoiceTypeCode>
    <cbc:DocumentCurrencyCode>" ++ cur ++ "</cbc:DocumentCurrencyCode>
    <cbc:TaxCurrencyCode>" ++ cur ++ "</cbc:TaxCurrencyCode>" ++
  billingReferenceXml isNote invoice.billingReferenceId ++ "
    <cac:AdditionalDocumentReference>
        <cbc:ID>ICV</cbc:ID>
        <cbc:UUID>" ++ jsShowOptNum invoice.invoiceCounterNumber ++ "</cbc:UUID>
    </cac:AdditionalDocumentReference>
    <cac:AdditionalDocumentReference>
        <cbc:ID>PIH</cbc:ID>
        <cac:Attachment>
            <cbc:EmbeddedDocumentBinaryObject mimeCode=\"text/plain\">" ++
  finalPreviousHash ++ "</cbc:EmbeddedDocumentBinaryObject>
        </cac:Attachment>
    </cac:AdditionalDocumentReference>
    <cac:AdditionalDocumentReference>
        <cbc:ID>QR</cbc:ID>
        <cac:Attachment>
            <cbc:EmbeddedDocumentBinaryObject mimeCode=\"text/plain\">SET_QR_CODE_DATA</cbc:EmbeddedDocumentBinaryObject>
        </cac:Attachment>
    </cac:AdditionalDocumentReference>
    <cac:Signature>
        <cbc:ID>urn:oasis:names:specification:ubl:signature:Invoice</cbc:ID>
        <cbc:SignatureMethod>urn:oasis:names:specification:ubl:dsig:enveloped:xades</cbc:SignatureMethod>
    </cac:Signature>
    <cac:AccountingSupplierParty>
        <cac:Party>
            <cac:PartyIdentification>
                <cbc:ID schemeID=\"CRN\">" ++ jsOr egs.crNumber supplier.vatNumber ++
  "</cbc:ID>
            </cac:PartyIdentification>
            <cac:PostalAddress>
                <cbc:StreetName>" ++ jsOr supplier.address.street "Main St" ++
  "</cbc:StreetName>
                <cbc:BuildingNumber>" ++ jsOr supplier.address.buildingNumber "1234" ++
  "</cbc:BuildingNumber>
                <cbc:CitySubdivisionName>" ++ jsOr supplier.address.district "District" ++
  "</cbc:CitySubdivisionName>
                <cbc:CityName>" ++ jsOr supplier.address.city "Riyadh" ++ "</cbc:CityName>
                <cbc:PostalZone>" ++ jsOr supplier.address.postalCode "12345" ++
  "</cbc:PostalZone>
                <cac:Country>
                    <cbc:IdentificationCode>" ++ jsOr supplier.address.country "SA" ++
  "</cbc:IdentificationCode>
                </cac:Country>
            </cac:PostalAddress>
            <cac:PartyTaxScheme>
                <cbc:CompanyID>" ++ supplier.vatNumber ++ "</cbc:CompanyID>
                <cac:TaxScheme>
                    <cbc:ID>VAT</cbc:ID>
                </cac:TaxScheme>
            </cac:PartyTaxScheme>
            <cac:PartyLegalEntity>
                <cbc:RegistrationName>" ++ supplier.registrationName ++
  "</cbc:RegistrationName>
            </cac:PartyLegalEntity>
        </cac:Party>
    </cac:AccountingSupplierParty>" ++ customerPartyXml isStandard customer ++ "
    " ++
  (if invoice.invoiceTypeCode == some "381" || invoice.invoiceTypeCode == some "383"
   then "
    <cac:PaymentMeans>
        <cbc:PaymentMeansCode>42</cbc:PaymentMeansCode>
        <cbc:InstructionNote>" ++
     (if invoice.invoiceTypeCode == some "381" then "Cancellation"
      else "Debit Adjustment") ++ "</cbc:InstructionNote>
    </cac:PaymentMeans>"
   else "") ++ "
    <cac:TaxTotal>
        <cbc:TaxAmount currencyID=\"" ++ cur ++ "\">" ++ toFixed2 totals.vatTotal ++
  "</cbc:TaxAmount>" ++ taxSubtotalsXml cur lineItems ++ "
    </cac:TaxTotal>
    <cac:TaxTotal>
        <cbc:TaxAmount currencyID=\"SAR\">" ++
  toFixed2 (totals.taxCurrencyVatTotal.getD totals.vatTotal) ++ "</cbc:TaxAmount>
    </cac:TaxTotal>" ++ allowanceChargesXml cur dto.allowanceCharges ++ "
    <cac:LegalMonetaryTotal>
        <cbc:LineExtensionAmount currencyID=\"" ++ cur ++ "\">" ++
  toFixed2 totals.lineExtensionTotal ++ "</cbc:LineExtensionAmount>
        <cbc:TaxExclusiveAmount currencyID=\"" ++ cur ++ "\">" ++
  toFixed2 totals.taxExclusiveTotal ++ "</cbc:TaxExclusiveAmount>
        <cbc:TaxInclusiveAmount currencyID=\"" ++ cur ++ "\">" ++
  toFixed2 totals.taxInclusiveTotal ++ "</cbc:TaxInclusiveAmount>
        " ++
  (if jsTruthyNum totals.allowanceTotalAmount then
    "<cbc:AllowanceTotalAmount currencyID=\"" ++ cur ++ "\">" ++
      toFixed2 (totals.allowanceTotalAmount.getD 0) ++ "</cbc:AllowanceTotalAmount>"
   else "") ++ "
        " ++
  (if jsTruthyNum totals.chargeTotalAmount then
    "<cbc:ChargeTotalAmount currencyID=\"" ++ cur ++ "\">" ++
      toFixed2 (totals.chargeTotalAmount.getD 0) ++ "</cbc:ChargeTotalAmount>"
   else "") ++ "
        " ++
  (if jsTruthyNum totals.prepaidAmount then
    "<cbc:PrepaidAmount currencyID=\"" ++ cur ++ "\">" ++
      toFixed2 (totals.prepaidAmount.getD 0) ++ "</cbc:PrepaidAmount>"
   else "") ++ "
        " ++
  (if jsTruthyNum totals.payableRoundingAmount then
    "<cbc:PayableRoundingAmount currencyID=\"" ++ cur ++ "\">" ++
      toFixed2 (totals.payableRoundingAmount.getD 0) ++ "</cbc:PayableRoundingAmount>"
   else "") ++ "
        <cbc:PayableAmount currencyID=\"" ++ cur ++ "\">" ++
  toFixed2 totals.payableAmount ++ "</cbc:PayableAmount>
    </cac:LegalMonetaryTotal>" ++ lineItemsXml cur lineItems ++
  prepaymentLineItemXml cur lineItems.length dto.prepayment ++ "
</Invoice>"

/-!
## Concrete sample data for witnesses and counterexamples
-/

/-- A signed standard (`01…`) invoice row. -/
def sampleInvoiceStd : InvoiceRec :=
  { id := "inv-1", commonName := "ACME", invoiceNumber := "ACME-SD-25-00000001",
    uuid := "u-1", invoiceTypeCodeName := "0111010", signedXml := some "<Invoice/>",
    hash := some { currentInvoiceHash := some "hash-1" } }

/-- A fully credentialed unit. -/
def sampleUnit : EgsUnit :=
  { commonName := "ACME", csr := some "csr-pem", privateKey := some "key-pem",
    binarySecurityToken := some "tok", secret := some "sec", requestId := some "11",
    complianceBinarySecurityToken := some "ctok", complianceSecret := some "csec",
    complianceRequestId := some "12",
    productionBinarySecurityToken := some "ptok", productionSecret := some "psec",
    productionRequestId := some "13", production := false }

/-- A unit whose compliance slot is empty while the legacy/active slot is
populated (e.g. after its compliance columns were cleared). -/
def legacyOnlyUnit : EgsUnit :=
  { commonName := "ACME", csr := some "csr-pem", privateKey := some "key-pem",
    binarySecurityToken := some "old-tok", secret := some "old-sec",
    requestId := some "42",
    complianceBinarySecurityToken := none, complianceSecret := none,
    complianceRequestId := none,
    productionBinarySecurityToken := none, productionSecret := none,
    productionRequestId := none, production := true }

/-- A successful production-certificate reply. -/
def sampleProdResult : ProdCertResult :=
  { binarySecurityToken := "new-ptok", secret := "new-psec", requestID := some "77" }

/-- A simplified invoice whose stored digest is the empty string. -/
def emptyDigestInvoice : InvoiceRec :=
  { id := "inv-0", commonName := "ACME", invoiceNumber := "ACME-SI-25-00000001",
    uuid := "u-0", invoiceTypeCodeName := "0211010", signedXml := some "<Invoice/>",
    hash := some { currentInvoiceHash := some "" } }

/-- A sequencer database whose latest `ACME` invoice has an empty digest. -/
def emptyDigestDb : SeqDb :=
  { invoices := [emptyDigestInvoice], counters := [("ACME", 1)] }

/-- An empty sequencer database. -/
def emptySeqDb : SeqDb :=
  { invoices := [], counters := [] }

/-- A sequencer database whose latest `ACME` invoice carries digest
`"hash-1"`. -/
def goodChainDb : SeqDb :=
  { invoices := [sampleInvoiceStd], counters := [("ACME", 1)] }

/-- A plain simplified-invoice allocation request. -/
def simpleSeqDto : SeqDto :=
  { commonName := "ACME", invoiceTypeCode := some "388",
    invoiceTypeCodeName := some "0211010", customerType := some "B2C" }

/-- A line item with zero VAT and no explicit tax category. -/
def zeroVatLine : LineItem :=
  { lineId := "1", description := "Medical Service", quantity := 1,
    unitCode := none, unitPrice := 500, taxExclusiveAmount := 500,
    vatPercent := 0, vatAmount := 0, taxCategory := none,
    taxExemptionReasonCode := none, taxExemptionReason := none,
    documentReference := none, allowanceCharges := none }

/-- A line item with 15% VAT and no explicit tax category. -/
def stdVatLine : LineItem :=
  { lineId := "2", description := "Room Charge", quantity := 1,
    unitCode := none, unitPrice := 100, taxExclusiveAmount := 100,
    vatPercent := 15, vatAmount := 15, taxCategory := none,
    taxExemptionReasonCode := none, taxExemptionReason := none,
    documentReference := none, allowanceCharges := none }

/-- A minimal invoice header. -/
def minimalMeta : InvoiceMeta :=
  { invoiceSerialNumber := some "INV-1", uuid := none, issueDate := none,
    issueTime := none, timezone := none, currency := none,
    invoiceCounterNumber := some 1, previousInvoiceHash := none,
    invoiceTypeCode := none, invoiceTypeCodeName := some "0211010",
    billingReferenceId := none }

/-- A minimal supplier. -/
def minimalSupplier : Supplier :=
  { registrationName := "Radisson Blu Hotel", vatNumber := "301245987500003",
    address := { street := none, buildingNumber := none, district := none,
                 city := none, postalCode := none, country := none } }

/-- Zero totals. -/
def minimalTotals : Totals :=
  { lineExtensionTotal := 0, taxExclusiveTotal := 0, vatTotal := 0,
    taxCurrencyVatTotal := none, taxInclusiveTotal := 0,
    allowanceTotalAmount := none, chargeTotalAmount := none,
    prepaidAmount := none, payableRoundingAmount := none, payableAmount := 0 }

/-- A minimal concrete request for the assembler. -/
def minimalDto : SignInvoiceDto :=
  { egs := { commonName := "ACME", vatNumber := "301245987500003", crNumber := none },
    invoice := minimalMeta, supplier := minimalSupplier, customer := none,
    lineItems := [], allowanceCharges := none, prepayment := none,
    totals := minimalTotals }

/-- A fixed clock reading for the assembler (the value the current-time
provider returns, for any timezone). -/
def fixedClockDate : String → String := fun _ => "2025-12-26"

/-- The time component of the fixed clock reading. -/
def fixedClockTime : String → String := fun _ => "14:30:00"

/-- A failed authority response (none of the three success signals). -/
def sampleFailedResponse : ZatcaResponse :=
  { reportingStatus := some "NOT_REPORTED", clearanceStatus := none,
    validationStatus := some "ERROR" }

/-- A response signalling success through the clearance-status field. -/
def sampleClearedResponse : ZatcaResponse :=
  { reportingStatus := none, clearanceStatus := some "CLEARED",
    validationStatus := none }

end Zatca

namespace Zatca

/-! ## Helper lemmas -/

theorem jsOrNull_eq_some {a : Option String} {t : String} (ht : t ≠ "") :
    jsOrNull a = some t ↔ a = some t := by
  cases a with
  | none => simp [jsOrNull]
  | some s =>
      by_cases h : s = "" <;>
        simp [jsOrNull, h, eq_comm (a := t) (b := s)]
      subst h
      exact fun hc => absurd hc.symm ht

/-! ## C1: status reconciliation -/

/-- C1: for every authority response reconciled by the router, the
canonical status equals the success status matching the submission kind
(`"CLEARED"` for a standard/clearance document, `"REPORTED"` otherwise)
if and only if the response's reporting-status is `"REPORTED"`, or its
clearance-status is `"CLEARED"`, or its validation-results status is
`"PASS"`; in every other case the canonical status is `"FAILED"`. -/
theorem reconciliation_canonical_status (result : ZatcaResponse) (isStandard : Bool) :
    (deriveOverallStatus result isStandard =
        (if isStandard then "CLEARED" else "REPORTED") ↔
      (result.reportingStatus = some "REPORTED" ∨
        result.clearanceStatus = some "CLEARED" ∨
        result.validationStatus = some "PASS")) ∧
    (¬(result.reportingStatus = some "REPORTED" ∨
        result.clearanceStatus = some "CLEARED" ∨
        result.validationStatus = some "PASS") →
      deriveOverallStatus result isStandard = "FAILED") := by
  have hr := jsOrNull_eq_some (a := result.reportingStatus)
    (t := "REPORTED") (by decide)
  have hc := jsOrNull_eq_some (a := result.clearanceStatus)
    (t := "CLEARED") (by decide)
  unfold deriveOverallStatus
  rw [if_congr (or_congr hr (or_congr hc Iff.rfl)) rfl rfl]
  by_cases h : (result.reportingStatus = some "REPORTED" ∨
      result.clearanceStatus = some "CLEARED" ∨
      result.validationStatus = some "PASS")
  · rw [if_pos h]
    exact ⟨⟨fun _ => h, fun _ => rfl⟩, fun hn => absurd h hn⟩
  · rw [if_neg h]
    refine ⟨⟨fun he => ?_, fun hs => absurd hs h⟩, fun _ => rfl⟩
    cases isStandard <;> simp_all

/-- Witness for C1 at concrete responses: a `CLEARED` signal yields the
clearance success status, and a response with no success signal yields
`FAILED`. -/
theorem reconciliation_canonical_status_witness :
    deriveOverallStatus sampleClearedResponse true = "CLEARED" ∧
    deriveOverallStatus sampleFailedResponse false = "FAILED" :=
  ⟨(reconciliation_canonical_status sampleClearedResponse true).1.mpr
      (Or.inr (Or.inl rfl)),
   (reconciliation_canonical_status sampleFailedResponse false).2 (by decide)⟩

/-! ## C9: attempt bookkeeping -/

/-- C9: every reconciliation call increments the submission's attempt
counter by exactly one (a first call creates the record with counter 1),
stamps the last-attempt time, and the canonical status written (to both
the submission row and the invoice) is `deriveOverallStatus` of the raw
response alone — in particular it is the same whatever the previous
attempt count was. -/
theorem reconciliation_attempt_bookkeeping (now : Nat)
    (old old' : Option ZatcaSubmission) (invoiceId : String)
    (result : ZatcaResponse) (submissionType : String) (isStandard : Bool) :
    (updateSubmissionStatus now old invoiceId result submissionType
        isStandard).1.attemptCount = (old.elim 0 (·.attemptCount)) + 1 ∧
    (updateSubmissionStatus now old invoiceId result submissionType
        isStandard).1.lastAttemptAt = now ∧
    (updateSubmissionStatus now old invoiceId result submissionType
        isStandard).1.zatcaStatus = deriveOverallStatus result isStandard ∧
    (updateSubmissionStatus now old invoiceId result submissionType
        isStandard).2 = deriveOverallStatus result isStandard ∧
    (updateSubmissionStatus now old invoiceId result submissionType
        isStandard).1.zatcaStatus =
      (updateSubmissionStatus now old' invoiceId result submissionType
        isStandard).1.zatcaStatus := by
  cases old <;> cases old' <;> simp [updateSubmissionStatus]

/-! ## C5: clearance/reporting routing -/

/-- C5: whenever the router accepts a submission, it sends the invoice
to the clearance endpoint exactly when the invoice's type-code name
starts with `"01"` (the standard/business profile), and to the reporting
endpoint in every other case. -/
theorem router_endpoint_classification (invoices : List InvoiceRec)
    (units : List EgsUnit) (oldSub : Option ZatcaSubmission) (now : Nat)
    (commonName serial : String) (result : ZatcaResponse) (inv : InvoiceRec)
    (u : EgsUnit)
    (hfind : invoices.find? (fun i => i.invoiceNumber = serial) = some inv)
    (hsig : jsTruthy inv.signedXml = true)
    (hhash : jsTruthy (inv.hash.bind fun x => x.currentInvoiceHash) = true)
    (hu : units.find? (fun x => x.commonName = commonName) = some u)
    (htok : jsTruthy u.binarySecurityToken = true)
    (hsec : jsTruthy u.secret = true) :
    submitToZatca invoices units oldSub now commonName serial result =
      .ok ((if inv.invoiceTypeCodeName.startsWith "01" then Endpoint.clearance
            else Endpoint.reporting),
        (updateSubmissionStatus now oldSub inv.id result
          (if inv.invoiceTypeCodeName.startsWith "01" then "CLEARANCE"
           else "REPORTING") (inv.invoiceTypeCodeName.startsWith "01")).1,
        (updateSubmissionStatus now oldSub inv.id result
          (if inv.invoiceTypeCodeName.startsWith "01" then "CLEARANCE"
           else "REPORTING") (inv.invoiceTypeCodeName.startsWith "01")).2) := by
  unfold submitToZatca
  rw [hfind]
  simp only [hsig, hhash, and_self, not_true_eq_false, if_false, hu,
    htok, hsec]

/-- Witness for C5 at a concrete database: a signed standard invoice is
routed to clearance. -/
theorem router_endpoint_classification_witness :
    submitToZatca [sampleInvoiceStd] [sampleUnit] none 7 "ACME"
        "ACME-SD-25-00000001" sampleFailedResponse =
      .ok ((if sampleInvoiceStd.invoiceTypeCodeName.startsWith "01" then
              Endpoint.clearance
            else Endpoint.reporting),
        (updateSubmissionStatus 7 none sampleInvoiceStd.id sampleFailedResponse
          (if sampleInvoiceStd.invoiceTypeCodeName.startsWith "01" then "CLEARANCE"
           else "REPORTING")
          (sampleInvoiceStd.invoiceTypeCodeName.startsWith "01")).1,
        (updateSubmissionStatus 7 none sampleInvoiceStd.id sampleFailedResponse
          (if sampleInvoiceStd.invoiceTypeCodeName.startsWith "01" then "CLEARANCE"
           else "REPORTING")
          (sampleInvoiceStd.invoiceTypeCodeName.startsWith "01")).2) :=
  router_endpoint_classification [sampleInvoiceStd] [sampleUnit] none 7
    "ACME" "ACME-SD-25-00000001" sampleFailedResponse sampleInvoiceStd
    sampleUnit (by decide) (by decide) (by decide) (by decide) (by decide)
    (by decide)

/-! ## C7: production-certificate transition -/

/-- Counterexample to C7 as stated: a unit whose compliance credentials
are absent (empty compliance slot) but whose legacy/active slot is
populated does not make `issueProductionCsid` fail — the call succeeds
and overwrites the credential slots with the production values. -/
theorem issue_production_csid_counterexample :
    complianceCredsPresent legacyOnlyUnit = false ∧
    issueProductionCsid (some legacyOnlyUnit) sampleProdResult =
      .ok { legacyOnlyUnit with
        productionBinarySecurityToken := some "new-ptok"
        productionSecret := some "new-psec"
        productionRequestId := some "77"
        binarySecurityToken := some "new-ptok"
        secret := some "new-psec"
        requestId := some "77" } :=
  ⟨rfl, rfl⟩

/-- C7 (amended): `issueProductionCsid` fails — raising an error and
writing nothing — exactly when both the compliance slot and the legacy
active slot are incomplete; otherwise it succeeds, storing the returned
production token/secret/request-id and overwriting the active slot with
the production values (CSR and private key untouched). -/
theorem issue_production_csid_requires_credentials (u : EgsUnit)
    (api : ProdCertResult) :
    (complianceCredsPresent u = false → legacyCredsPresent u = false →
      issueProductionCsid (some u) api =
        .error "Compliance CSID credentials missing. Please run 'issue-csid' (Step 2) first.") ∧
    (complianceCredsPresent u = true ∨ legacyCredsPresent u = true →
      issueProductionCsid (some u) api =
        .ok { u with
          productionBinarySecurityToken := some api.binarySecurityToken
          productionSecret := some api.secret
          productionRequestId := api.requestID
          binarySecurityToken := some api.binarySecurityToken
          secret := some api.secret
          requestId := api.requestID }) := by
  constructor
  · intro h1 h2
    unfold issueProductionCsid
    simp only []
    rw [if_pos (by simp [h1, h2])]
  · intro h
    unfold issueProductionCsid
    simp only []
    rw [if_neg (by rcases h with h | h <;> simp [h])]

/-- Witness for C7 (amended) at a fully credentialed unit: the
transition succeeds and installs the production credentials. -/
theorem issue_production_csid_requires_credentials_witness :
    issueProductionCsid (some sampleUnit) sampleProdResult =
      .ok { sampleUnit with
        productionBinarySecurityToken := some sampleProdResult.binarySecurityToken
        productionSecret := some sampleProdResult.secret
        productionRequestId := sampleProdResult.requestID
        binarySecurityToken := some sampleProdResult.binarySecurityToken
        secret := some sampleProdResult.secret
        requestId := sampleProdResult.requestID } :=
  (issue_production_csid_requires_credentials sampleUnit sampleProdResult).2
    (Or.inl (by decide))

/-! ## C8: revocation -/

/-- Counterexample to C8 as stated: `revokeEgs` does not clear the
request-id columns — after revocation all three survive non-null. -/
theorem revoke_egs_counterexample :
    (revokeEgs sampleUnit).requestId = some "11" ∧
    (revokeEgs sampleUnit).complianceRequestId = some "12" ∧
    (revokeEgs sampleUnit).productionRequestId = some "13" ∧
    ¬(revokeEgs sampleUnit).requestId = none :=
  ⟨rfl, rfl, rfl, by decide⟩

/-- C8 (amended): `revokeEgs` clears the six token/secret columns
(compliance, production and active pairs), leaves the CSR, the private
key and the three request-id columns unchanged, and is idempotent. -/
theorem revoke_egs_clears_and_idempotent (u : EgsUnit) :
    revokeEgs (revokeEgs u) = revokeEgs u ∧
    (revokeEgs u).binarySecurityToken = none ∧
    (revokeEgs u).secret = none ∧
    (revokeEgs u).productionBinarySecurityToken = none ∧
    (revokeEgs u).productionSecret = none ∧
    (revokeEgs u).complianceBinarySecurityToken = none ∧
    (revokeEgs u).complianceSecret = none ∧
    (revokeEgs u).csr = u.csr ∧
    (revokeEgs u).privateKey = u.privateKey ∧
    (revokeEgs u).requestId = u.requestId ∧
    (revokeEgs u).complianceRequestId = u.complianceRequestId ∧
    (revokeEgs u).productionRequestId = u.productionRequestId :=
  ⟨rfl, rfl, rfl, rfl, rfl, rfl, rfl, rfl, rfl, rfl, rfl, rfl⟩

/-! ## C4 and C10: previous digest resolution -/

/-- Counterexample to C4 as stated: when the most recently issued
invoice's stored digest is the empty string, the allocation returns the
genesis constant, not that stored digest. -/
theorem sequencer_previous_digest_counterexample :
    findFirstByInvoiceNumberDesc (emptyDigestDb.invoices.filter
        (fun i => i.commonName = simpleSeqDto.commonName)) =
      some emptyDigestInvoice ∧
    emptyDigestInvoice.hash.bind (·.currentInvoiceHash) = some "" ∧
    (generateNextSerialNumber emptyDigestDb "25" simpleSeqDto).1.previousHash =
      DEFAULT_FIRST_HASH ∧
    ¬DEFAULT_FIRST_HASH = "" :=
  ⟨by decide, rfl, rfl, by decide⟩

/-- C4 (amended): the allocation returns the genesis constant as
previous digest when no invoice exists for the series, and the stored
current digest of the most recently issued invoice (ranked first by
serial number descending) whenever that stored digest is present and
non-empty. -/
theorem sequencer_previous_digest (db : SeqDb) (yearYY : String) (dto : SeqDto) :
    (findFirstByInvoiceNumberDesc (db.invoices.filter
        (fun i => i.commonName = dto.commonName)) = none →
      (generateNextSerialNumber db yearYY dto).1.previousHash =
        DEFAULT_FIRST_HASH) ∧
    (∀ inv d, findFirstByInvoiceNumberDesc (db.invoices.filter
        (fun i => i.commonName = dto.commonName)) = some inv →
      inv.hash.bind (·.currentInvoiceHash) = some d → ¬d = "" →
      (generateNextSerialNumber db yearYY dto).1.previousHash = d) := by
  constructor
  · intro h
    simp [generateNextSerialNumber, h, jsOr]
  · intro inv d h hd hne
    simp [generateNextSerialNumber, h, hd, jsOr, hne]

/-- Witness for C4 (amended): an empty series yields the genesis
constant; a series whose latest invoice stores digest `"hash-1"` yields
`"hash-1"`. -/
theorem sequencer_previous_digest_witness :
    (generateNextSerialNumber emptySeqDb "25" simpleSeqDto).1.previousHash =
      DEFAULT_FIRST_HASH ∧
    (generateNextSerialNumber goodChainDb "25" simpleSeqDto).1.previousHash =
      "hash-1" :=
  ⟨(sequencer_previous_digest emptySeqDb "25" simpleSeqDto).1 (by decide),
   (sequencer_previous_digest goodChainDb "25" simpleSeqDto).2
     sampleInvoiceStd "hash-1" (by decide) (by decide) (by decide)⟩

/-- C10: when the most recently issued invoice of the series exists but
its stored digest is null, missing, or the empty string, the allocation
silently returns the genesis constant as the chain link (no
data-integrity error is raised — the function returns normally). -/
theorem sequencer_silent_genesis_reset (db : SeqDb) (yearYY : String)
    (dto : SeqDto) (inv : InvoiceRec)
    (hlast : findFirstByInvoiceNumberDesc (db.invoices.filter
        (fun i => i.commonName = dto.commonName)) = some inv)
    (hmiss : inv.hash.bind (·.currentInvoiceHash) = none ∨
      inv.hash.bind (·.currentInvoiceHash) = some "") :
    (generateNextSerialNumber db yearYY dto).1.previousHash =
      DEFAULT_FIRST_HASH := by
  rcases hmiss with h | h <;> simp [generateNextSerialNumber, hlast, h, jsOr]

/-- Witness for C10 at the concrete empty-digest database. -/
theorem sequencer_silent_genesis_reset_witness :
    (generateNextSerialNumber emptyDigestDb "25" simpleSeqDto).1.previousHash =
      DEFAULT_FIRST_HASH :=
  sequencer_silent_genesis_reset emptyDigestDb "25" simpleSeqDto
    emptyDigestInvoice (by decide) (Or.inr (by decide))

/-! ## C3: tax-subtotal grouping -/

theorem any_fst_eq (m : List (GroupKey × TaxSubtotal)) (k : GroupKey) :
    (m.any fun e => e.1 = k) = true ↔ k ∈ m.map Prod.fst := by
  induction m with
  | nil => simp
  | cons e rest ih =>
      simp only [List.any_cons, List.map_cons, List.mem_cons, Bool.or_eq_true,
        decide_eq_true_eq, ih]
      constructor
      · rintro (h | h)
        · exact Or.inl h.symm
        · exact Or.inr h
      · rintro (h | h)
        · exact Or.inl h.symm
        · exact Or.inr h

theorem updateEntry_nil (k : GroupKey) (f : TaxSubtotal → TaxSubtotal) :
    updateEntry [] k f = [] := rfl

theorem updateEntry_cons (e : GroupKey × TaxSubtotal)
    (rest : List (GroupKey × TaxSubtotal)) (k : GroupKey)
    (f : TaxSubtotal → TaxSubtotal) :
    updateEntry (e :: rest) k f =
      if e.1 = k then (e.1, f e.2) :: rest else e :: updateEntry rest k f := rfl

theorem updateEntry_map_fst (m : List (GroupKey × TaxSubtotal)) (k : GroupKey)
    (f : TaxSubtotal → TaxSubtotal) :
    (updateEntry m k f).map Prod.fst = m.map Prod.fst := by
  induction m with
  | nil => rfl
  | cons e rest ih =>
      rw [updateEntry_cons]
      by_cases h : e.1 = k <;> simp [h, ih]

theorem updateEntry_map_sum (m : List (GroupKey × TaxSubtotal)) (k : GroupKey)
    (f : TaxSubtotal → TaxSubtotal) (g : TaxSubtotal → ℚ) (d : ℚ)
    (hf : ∀ v, g (f v) = g v + d) (hk : k ∈ m.map Prod.fst) :
    ((updateEntry m k f).map (fun e => g e.2)).sum =
      (m.map (fun e => g e.2)).sum + d := by
  induction m with
  | nil => simp at hk
  | cons e rest ih =>
      rw [updateEntry_cons]
      by_cases h : e.1 = k
      · rw [if_pos h]
        simp only [List.map_cons, List.sum_cons, hf]
        ring
      · rw [if_neg h]
        rw [List.map_cons] at hk
        have hk' : k ∈ rest.map Prod.fst := by
          rcases List.mem_cons.mp hk with h' | h'
          · exact absurd h'.symm h
          · exact h'
        simp only [List.map_cons, List.sum_cons, ih hk']
        ring

theorem seenStep_def {α : Type} [DecidableEq α] (acc : List α) (k : α) :
    seenStep acc k = if k ∈ acc then acc else acc ++ [k] := rfl

theorem addLineToMap_map_fst (m : List (GroupKey × TaxSubtotal)) (item : LineItem) :
    (addLineToMap m item).map Prod.fst =
      seenStep (m.map Prod.fst) (effectiveTaxCategory item, item.vatPercent) := by
  rw [seenStep_def]
  by_cases hk : (effectiveTaxCategory item, item.vatPercent) ∈ m.map Prod.fst
  · rw [if_pos hk]
    simp only [addLineToMap]
    rw [if_pos ((any_fst_eq m _).mpr hk)]
    exact updateEntry_map_fst ..
  · rw [if_neg hk]
    simp only [addLineToMap]
    rw [if_neg (fun hc => hk ((any_fst_eq m _).mp hc))]
    rw [updateEntry_map_fst]
    simp

theorem addLineToMap_sum_taxable (m : List (GroupKey × TaxSubtotal))
    (item : LineItem) :
    ((addLineToMap m item).map (fun e => e.2.taxableAmount)).sum =
      (m.map (fun e => e.2.taxableAmount)).sum +
        (item.taxExclusiveAmount + lineNetChange item) := by
  by_cases hk : (effectiveTaxCategory item, item.vatPercent) ∈ m.map Prod.fst
  · simp only [addLineToMap]
    rw [if_pos ((any_fst_eq m _).mpr hk)]
    exact updateEntry_map_sum m _ _ _ _ (fun v => rfl) hk
  · simp only [addLineToMap]
    rw [if_neg (fun hc => hk ((any_fst_eq m _).mp hc))]
    rw [updateEntry_map_sum _ _ _ _ _ (fun v => rfl) (by simp)]
    simp

theorem addLineToMap_sum_tax (m : List (GroupKey × TaxSubtotal))
    (item : LineItem) :
    ((addLineToMap m item).map (fun e => e.2.taxAmount)).sum =
      (m.map (fun e => e.2.taxAmount)).sum + item.vatAmount := by
  by_cases hk : (effectiveTaxCategory item, item.vatPercent) ∈ m.map Prod.fst
  · simp only [addLineToMap]
    rw [if_pos ((any_fst_eq m _).mpr hk)]
    exact updateEntry_map_sum m _ _ _ _ (fun v => rfl) hk
  · simp only [addLineToMap]
    rw [if_neg (fun hc => hk ((any_fst_eq m _).mp hc))]
    rw [updateEntry_map_sum _ _ _ _ _ (fun v => rfl) (by simp)]
    simp

theorem foldl_addLineToMap_map_fst (items : List LineItem) :
    ∀ m : List (GroupKey × TaxSubtotal),
    (items.foldl addLineToMap m).map Prod.fst =
      (items.map (fun it => (effectiveTaxCategory it, it.vatPercent))).foldl
        seenStep (m.map Prod.fst) := by
  induction items with
  | nil => intro m; rfl
  | cons it rest ih =>
      intro m
      simp only [List.foldl_cons, List.map_cons]
      rw [ih, addLineToMap_map_fst]

theorem foldl_addLineToMap_sum_taxable (items : List LineItem) :
    ∀ m : List (GroupKey × TaxSubtotal),
    ((items.foldl addLineToMap m).map (fun e => e.2.taxableAmount)).sum =
      (m.map (fun e => e.2.taxableAmount)).sum +
        (items.map (fun it => it.taxExclusiveAmount + lineNetChange it)).sum := by
  induction items with
  | nil => intro m; simp
  | cons it rest ih =>
      intro m
      simp only [List.foldl_cons, List.map_cons, List.sum_cons]
      rw [ih, addLineToMap_sum_taxable]
      ring

theorem foldl_addLineToMap_sum_tax (items : List LineItem) :
    ∀ m : List (GroupKey × TaxSubtotal),
    ((items.foldl addLineToMap m).map (fun e => e.2.taxAmount)).sum =
      (m.map (fun e => e.2.taxAmount)).sum +
        (items.map (fun it => it.vatAmount)).sum := by
  induction items with
  | nil => intro m; simp
  | cons it rest ih =>
      intro m
      simp only [List.foldl_cons, List.map_cons, List.sum_cons]
      rw [ih, addLineToMap_sum_tax]
      ring

theorem firstSeen_aux {α : Type} [DecidableEq α] (l : List α) :
    ∀ acc : List α, acc.Nodup →
    (l.foldl seenStep acc).Nodup ∧
    (l.foldl seenStep acc).toFinset = acc.toFinset ∪ l.toFinset := by
  induction l with
  | nil => intro acc h; simpa using h
  | cons k rest ih =>
      intro acc h
      simp only [List.foldl_cons, seenStep_def]
      by_cases hk : k ∈ acc
      · rw [if_pos hk]
        obtain ⟨h1, h2⟩ := ih acc h
        refine ⟨h1, ?_⟩
        rw [h2]
        ext x
        simp only [Finset.mem_union, List.mem_toFinset, List.toFinset_cons,
          Finset.mem_insert]
        constructor
        · rintro (hx | hx)
          · exact Or.inl hx
          · exact Or.inr (Or.inr hx)
        · rintro (hx | hx | hx)
          · exact Or.inl hx
          · exact Or.inl (hx ▸ hk)
          · exact Or.inr hx
      · rw [if_neg hk]
        obtain ⟨h1, h2⟩ := ih (acc ++ [k]) (by simp [List.nodup_append, h, hk])
        refine ⟨h1, ?_⟩
        rw [h2]
        ext x
        simp only [Finset.mem_union, List.mem_toFinset, List.toFinset_cons,
          Finset.mem_insert, List.mem_append, List.mem_singleton]
        constructor
        · rintro (⟨hx | hx⟩ | hx)
          · exact Or.inl hx
          · exact Or.inr (Or.inl hx)
          · exact Or.inr (Or.inr hx)
        · rintro (hx | hx | hx)
          · exact Or.inl (Or.inl hx)
          · exact Or.inl (Or.inr hx)
          · exact Or.inr hx

theorem firstSeen_length {α : Type} [DecidableEq α] (l : List α) :
    (firstSeen l).length = l.toFinset.card := by
  obtain ⟨hn, hf⟩ := firstSeen_aux l [] List.nodup_nil
  have hn' : (firstSeen l).Nodup := hn
  have he : (firstSeen l).toFinset = l.toFinset := by
    have h2 : (firstSeen l).toFinset = ([] : List α).toFinset ∪ l.toFinset := hf
    simpa using h2
  rw [← he]
  exact (List.toFinset_card_of_nodup hn').symm

/-- C3: for every list of line items, the tax-subtotal grouping produces
its group keys in first-seen order of the (effective tax category, VAT
percentage) pairs of the lines; the number of groups equals the number
of distinct such pairs; the sum of the group taxable bases equals the
sum over the lines of the taxable amount net of line-level
allowances/charges; and the sum of the group tax amounts equals the sum
of the line VAT amounts. -/
theorem tax_subtotal_grouping (items : List LineItem) :
    (taxSubtotalsMap items).map Prod.fst =
      firstSeen (items.map (fun it => (effectiveTaxCategory it, it.vatPercent))) ∧
    (taxSubtotalsMap items).length =
      (items.map (fun it => (effectiveTaxCategory it, it.vatPercent))).toFinset.card ∧
    ((taxSubtotalsMap items).map (fun e => e.2.taxableAmount)).sum =
      (items.map (fun it => it.taxExclusiveAmount + lineNetChange it)).sum ∧
    ((taxSubtotalsMap items).map (fun e => e.2.taxAmount)).sum =
      (items.map (fun it => it.vatAmount)).sum := by
  have hkeys : (taxSubtotalsMap items).map Prod.fst =
      firstSeen (items.map (fun it => (effectiveTaxCategory it, it.vatPercent))) := by
    unfold taxSubtotalsMap firstSeen
    simpa using foldl_addLineToMap_map_fst items []
  refine ⟨hkeys, ?_, ?_, ?_⟩
  · have hl := congrArg List.length hkeys
    rwa [List.length_map, firstSeen_length] at hl
  · unfold taxSubtotalsMap
    simpa using foldl_addLineToMap_sum_taxable items []
  · unfold taxSubtotalsMap
    simpa using foldl_addLineToMap_sum_tax items []

/-! ## C6: inferred per-line tax category -/

/-- Counterexample to C6 as stated: for a line with no explicit tax
category and zero VAT percentage, the assembler infers category `"O"`
(out of scope), which is not the zero-rated category `"Z"` of the
authority's code list. -/
theorem infer_category_counterexample :
    zeroVatLine.taxCategory = none ∧ zeroVatLine.vatPercent = 0 ∧
    effectiveTaxCategory zeroVatLine = "O" ∧
    ¬effectiveTaxCategory zeroVatLine = zeroRatedCategoryCode :=
  ⟨rfl, rfl, rfl, by decide⟩

/-- C6 (amended): for a line item with no explicit tax category the
assembler infers the out-of-scope category `"O"` whenever the VAT
percentage is not positive (in particular when it is zero), and the
standard category `"S"` whenever it is positive. -/
theorem infer_category (item : LineItem) (hnone : item.taxCategory = none) :
    (item.vatPercent ≤ 0 → effectiveTaxCategory item = "O") ∧
    (0 < item.vatPercent → effectiveTaxCategory item = "S") := by
  constructor
  · intro h
    unfold effectiveTaxCategory
    rw [hnone]
    show (if 0 < item.vatPercent then "S" else "O") = "O"
    rw [if_neg (not_lt.mpr h)]
  · intro h
    unfold effectiveTaxCategory
    rw [hnone]
    show (if 0 < item.vatPercent then "S" else "O") = "S"
    rw [if_pos h]

/-- Witness for C6 (amended) at the two concrete line items. -/
theorem infer_category_witness :
    effectiveTaxCategory zeroVatLine = "O" ∧
    effectiveTaxCategory stdVatLine = "S" :=
  ⟨(infer_category zeroVatLine rfl).1 (by decide),
   (infer_category stdVatLine rfl).2 (by decide)⟩

/-! ## C2: assembler determinism -/

set_option maxRecDepth 4000 in
/-- Counterexample to C2 as stated: two runs of the assembler on the
identical request and identical clock reading are not byte-identical —
the run draws a fresh random UUID (`crypto.randomUUID()`) into the
`<cbc:UUID>` element, so runs whose draws differ produce different
bytes. -/
theorem assemble_two_runs_counterexample :
    ¬generateInvoiceXml "11111111-1111-4111-8111-111111111111"
        fixedClockDate fixedClockTime minimalDto =
      generateInvoiceXml "22222222-2222-4222-8222-222222222222"
        fixedClockDate fixedClockTime minimalDto := by
  intro h
  simp only [generateInvoiceXml, fixedClockDate, fixedClockTime] at h
  have h2 := congrArg String.data h
  simp only [String.data_append, List.append_assoc] at h2
  have h3 := List.append_cancel_left h2
  have h4 := List.append_cancel_left h3
  have h5 := List.append_cancel_left h4
  have h6 := List.append_cancel_left h5
  have h7 := List.append_cancel_left h6
  have h8 := List.append_cancel_right h7
  exact absurd (String.ext h8) (by decide)

/-- C2 (amended): the assembler is deterministic given identical input,
identical clock reading and an identical UUID draw — two such runs
produce byte-identical unsigned documents (the random UUID is the sole
source of nondeterminism beyond the clock). -/
theorem assemble_deterministic (u1 u2 : String) (zd1 zt1 zd2 zt2 : String → String)
    (dto1 dto2 : SignInvoiceDto) (hu : u1 = u2) (hzd : zd1 = zd2)
    (hzt : zt1 = zt2) (hdto : dto1 = dto2) :
    generateInvoiceXml u1 zd1 zt1 dto1 = generateInvoiceXml u2 zd2 zt2 dto2 := by
  subst hu hzd hzt hdto
  rfl

/-- Witness for C2 (amended) at a concrete run. -/
theorem assemble_deterministic_witness :
    generateInvoiceXml "11111111-1111-4111-8111-111111111111"
        fixedClockDate fixedClockTime minimalDto =
      generateInvoiceXml "11111111-1111-4111-8111-111111111111"
        fixedClockDate fixedClockTime minimalDto :=
  assemble_deterministic _ _ _ _ _ _ _ _ rfl rfl rfl rfl

end Zatca
